import Mathlib

/-!
# Verification of the Otodom Poland scraper pipeline

A shallow embedding, in Lean 4, of the crawl/queue pipeline of the
`landomo-poland-otodom` repository: the missing-property Verifier, the
Worker's per-listing processing, the Coordinator's pagination loop, the
city scraper's discovery fetch, the retry backoff formulas and the
payload transformer.  TypeScript control flow is translated to pure Lean
functions; the outcomes of network calls (HTTP fetches, the Core-Service
sink, the Redis queue) are passed in explicitly as environment values,
and the side effects each routine performs are returned as an ordered
event list.  JavaScript numbers are embedded as exact rationals.

The `redis-queue.ts` module is not part of the sources; the few queue
behaviours that matter here (change detection against the stored
snapshot) are modelled from the specification and marked as such.
-/

namespace Otodom

/-! ## Discovery page fetch results

`{ ids, total }` as returned by the `fetchListingIds` functions. -/

/-- Result shape `{ ids: string[]; total: number }` of the discovery
fetch functions. -/
structure IdsTotal where
  ids : List String
  total : Nat
  deriving Repr, DecidableEq

/-- Pagination block of an Otodom search response
(`searchAds.pagination`); only `totalItems` is consulted. -/
structure Pagination where
  totalItems : Nat
  deriving Repr, DecidableEq

/-- One item of `searchAds.items`; only `id` is consulted by
`fetchListingIds` (`String(item.id)`). -/
structure SearchItem where
  id : Nat
  deriving Repr, DecidableEq

/-- Outcome of the HTTP GET performed by
`OtodomCityScraper.fetchListingIds`: either the request threw (HTTP
error, network error, parse failure) or a response arrived, whose
`pageProps.data.searchAds.items` chain may be absent (`none`) and whose
`pagination` block may be absent. -/
inductive PageFetchOutcome where
  | error : PageFetchOutcome
  | ok : Option (List SearchItem) → Option Pagination → PageFetchOutcome
  deriving Repr, DecidableEq

/-- `OtodomCityScraper.fetchListingIds` (scraper-city): returns
`{ ids: [], total: 0 }` when the request throws or when
`data?.pageProps?.data?.searchAds?.items` is absent; otherwise maps the
items to their string ids and takes `pagination?.totalItems || 0`. -/
def fetchListingIds : PageFetchOutcome → IdsTotal
  | .error => ⟨[], 0⟩
  | .ok none _ => ⟨[], 0⟩
  | .ok (some items) pagination =>
      ⟨items.map (fun item => toString item.id),
       match pagination with
       | some p => p.totalItems
       | none => 0⟩

/-! ## JavaScript value helpers

JS numbers are embedded as exact rationals; `undefined`/absent values as
`Option`. -/

/-- JS `Math.round`: round half toward positive infinity
(`Math.round x = ⌊x + 1/2⌋`). -/
def jsRound (q : ℚ) : ℚ := ((⌊q + 1/2⌋ : ℤ) : ℚ)

/-- Embedding of JS `String.prototype.toLowerCase` (the keys looked up
by the transformer are ASCII or already lowercase, so ASCII lowering is
faithful where it matters). -/
def jsToLower (s : String) : String := s.map Char.toLower

/-- Character-list version of a starts-with test, used to embed JS
`String.prototype.includes`. -/
def charsStartWith : List Char → List Char → Bool
  | [], _ => true
  | _ :: _, [] => false
  | a :: as, b :: bs => a == b && charsStartWith as bs

/-- Does `needle` occur contiguously inside the character list? -/
def charsContain (needle : List Char) : List Char → Bool
  | [] => needle.isEmpty
  | c :: rest => charsStartWith needle (c :: rest) || charsContain needle rest

/-- JS `hay.includes(needle)`. -/
def strIncludes (hay needle : String) : Bool := charsContain needle.toList hay.toList

/-- JS truthiness of an optional number: absent, `0` (and `NaN`, not
representable in `ℚ`) are falsy. -/
def jsTruthyNum (o : Option ℚ) : Bool :=
  match o with
  | none => false
  | some q => decide (q ≠ 0)

/-- JS truthiness of an optional string: absent and `""` are falsy. -/
def jsTruthyStr (o : Option String) : Bool :=
  match o with
  | none => false
  | some s => !s.isEmpty

/-! ## Property data model (`src/types.ts`, transformer-compatible `Property`) -/

/-- `location.coordinates` of the scraped `Property`. -/
structure Coordinates where
  lat : ℚ
  lng : ℚ
  deriving Repr, DecidableEq

/-- `location` block of the scraped `Property`. -/
structure PropLocation where
  address : Option String := none
  city : Option String := none
  district : Option String := none
  province : Option String := none
  postalCode : Option String := none
  coordinates : Option Coordinates := none
  deriving Repr, DecidableEq

/-- `details` block of the scraped `Property`. -/
structure PropDetails where
  sqm : Option ℚ := none
  sqft : Option ℚ := none
  rooms : Option ℚ := none
  bedrooms : Option ℚ := none
  bathrooms : Option ℚ := none
  floor : Option String := none
  totalFloors : Option ℚ := none
  terrainArea : Option ℚ := none
  buildingYear : Option ℚ := none
  yearBuilt : Option ℚ := none
  buildingType : Option String := none
  deriving Repr, DecidableEq

/-- `agent` block of the scraped `Property`. -/
structure PropAgent where
  name : Option String := none
  agency : Option String := none
  phone : Option String := none
  email : Option String := none
  deriving Repr, DecidableEq

/-- `status` block of the scraped `Property`. -/
structure PropStatus where
  isFeatured : Option Bool := none
  isPromoted : Option Bool := none
  isExclusiveOffer : Option Bool := none
  isVerified : Option Bool := none
  isPrivateOwner : Option Bool := none
  deriving Repr, DecidableEq

/-- `dates` block of the scraped `Property`. -/
structure PropDates where
  createdAt : Option String := none
  updatedAt : Option String := none
  deriving Repr, DecidableEq

/-- `development` block of the scraped `Property`. -/
structure PropDevelopment where
  id : Option ℚ := none
  title : Option String := none
  url : Option String := none
  deriving Repr, DecidableEq

/-- The scraped `Property` record consumed by `transformToStandard`. -/
structure Property where
  id : String
  title : String
  description : Option String := none
  price : Option ℚ := none
  currency : String
  pricePerSqm : Option ℚ := none
  propertyType : String
  listingType : String
  location : PropLocation := {}
  details : PropDetails := {}
  features : List String := []
  amenities : Option (List String) := none
  images : List String := []
  agent : Option PropAgent := none
  status : Option PropStatus := none
  dates : Option PropDates := none
  development : Option PropDevelopment := none
  energyClass : Option String := none
  scrapedAt : String
  deriving Repr, DecidableEq

/-! ## StandardProperty output model (`transformer.ts`) -/

/-- `location.coordinates` of a `StandardProperty` (`lat`/`lon`). -/
structure StdCoordinates where
  lat : ℚ
  lon : ℚ
  deriving Repr, DecidableEq

/-- `location` block of a `StandardProperty`. -/
structure StdLocation where
  address : Option String := none
  city : Option String := none
  district : Option String := none
  province : Option String := none
  postal_code : Option String := none
  country : String
  coordinates : Option StdCoordinates := none
  deriving Repr, DecidableEq

/-- `details` block of a `StandardProperty`. -/
structure StdDetails where
  bedrooms : Option ℚ := none
  bathrooms : Option ℚ := none
  sqm : Option ℚ := none
  sqft : Option ℚ := none
  rooms : Option ℚ := none
  floor : Option String := none
  total_floors : Option ℚ := none
  year_built : Option ℚ := none
  land_area_sqm : Option ℚ := none
  deriving Repr, DecidableEq

/-- `amenities` block of a `StandardProperty`; `parseAmenities` always
fills every flag. -/
structure StdAmenities where
  has_parking : Bool
  has_garage : Bool
  has_balcony : Bool
  has_terrace : Bool
  has_garden : Bool
  has_elevator : Bool
  has_air_conditioning : Bool
  has_heating : Bool
  has_security : Bool
  is_furnished : Bool
  deriving Repr, DecidableEq

/-- `status` block of a `StandardProperty`. -/
structure StdStatus where
  is_featured : Option Bool := none
  is_promoted : Option Bool := none
  is_exclusive : Option Bool := none
  is_verified : Option Bool := none
  is_private_owner : Option Bool := none
  deriving Repr, DecidableEq

/-- `country_specific` block for the Polish market
(`buildCountrySpecificFields`). -/
structure CountrySpecific where
  typ_nieruchomosci : Option String := none
  typ_budynku : Option String := none
  pietro : Option String := none
  liczba_pieter : Option ℚ := none
  liczba_pokoi : Option ℚ := none
  rok_budowy : Option ℚ := none
  ogrzewanie : Option String := none
  balkon : Bool := false
  taras : Bool := false
  ogrod : Bool := false
  garaz : Bool := false
  piwnica : Bool := false
  poddasze : Bool := false
  winda : Bool := false
  inwestycja_id : Option ℚ := none
  inwestycja_nazwa : Option String := none
  inwestycja_url : Option String := none
  deriving Repr, DecidableEq

/-- The `StandardProperty` record produced by `transformToStandard`. -/
structure StandardProperty where
  title : String
  description : Option String := none
  price : Option ℚ := none
  currency : String
  price_per_sqm : Option ℚ := none
  price_per_sqft : Option ℚ := none
  property_type : String
  transaction_type : String
  location : StdLocation
  details : StdDetails := {}
  features : List String := []
  amenities : StdAmenities
  images : List String := []
  agent : Option PropAgent := none
  status : StdStatus := {}
  created_at : Option String := none
  updated_at : Option String := none
  scraped_at : String
  country_specific : CountrySpecific := {}
  deriving Repr, DecidableEq

/-! ## Transformer (`transformer.ts`) -/

/-- `propertyTypeMap[key]` of `transformToStandard`: the JS object
lookup over the literal map, `undefined` when the key is absent. -/
def propertyTypeMapLookup (key : String) : Option String :=
  if key = "apartment" then some "apartment"
  else if key = "mieszkanie" then some "apartment"
  else if key = "house" then some "house"
  else if key = "dom" then some "house"
  else if key = "land" then some "land"
  else if key = "dzialka" then some "land"
  else if key = "działka" then some "land"
  else if key = "commercial" then some "commercial"
  else if key = "lokal" then some "commercial"
  else if key = "property" then some "other"
  else none

/-- `transactionTypeMap[key]` of `transformToStandard`. -/
def transactionTypeMapLookup (key : String) : Option String :=
  if key = "sale" then some "sale"
  else if key = "rent" then some "rent"
  else if key = "lease" then some "lease"
  else if key = "other" then some "other"
  else none

/-- `polishTypeMap[key]` of `buildCountrySpecificFields`. -/
def polishTypeMapLookup (key : String) : Option String :=
  if key = "apartment" then some "mieszkanie"
  else if key = "house" then some "dom"
  else if key = "land" then some "dzialka"
  else if key = "commercial" then some "lokal"
  else none

/-- `checkFeature(text, keywords)`: does any keyword occur in the
feature text? -/
def checkFeature (text : String) (keywords : List String) : Bool :=
  keywords.any (fun keyword => strIncludes text keyword)

/-- `parseAmenities(features, existingAmenities)`. -/
def parseAmenities (features : List String) (existingAmenities : Option (List String)) :
    StdAmenities :=
  let allFeatures := features ++ existingAmenities.getD []
  let featureText := jsToLower (String.intercalate " " allFeatures)
  { has_parking := checkFeature featureText ["parking", "garaż", "miejsce parkingowe"]
    has_garage := checkFeature featureText ["garage", "garaż"]
    has_balcony := checkFeature featureText ["balcony", "balkon"]
    has_terrace := checkFeature featureText ["terrace", "taras"]
    has_garden := checkFeature featureText ["garden", "ogród", "ogrod"]
    has_elevator := checkFeature featureText ["elevator", "lift", "winda"]
    has_air_conditioning := checkFeature featureText ["air", "klimatyzacja", "ac"]
    has_heating := checkFeature featureText ["heating", "ogrzewanie", "centralne"]
    has_security := checkFeature featureText ["security", "alarm", "ochrona", "monitoring"]
    is_furnished := checkFeature featureText ["furnished", "umeblowane", "wyposażone"] }

/-- `buildCountrySpecificFields(property)`. -/
def buildCountrySpecificFields (property : Property) : CountrySpecific :=
  let featureText := jsToLower (String.intercalate " " property.features)
  { typ_nieruchomosci := polishTypeMapLookup (jsToLower property.propertyType)
    typ_budynku :=
      if jsTruthyStr property.details.buildingType then property.details.buildingType else none
    pietro := if jsTruthyStr property.details.floor then property.details.floor else none
    liczba_pieter :=
      if jsTruthyNum property.details.totalFloors then property.details.totalFloors else none
    liczba_pokoi := if jsTruthyNum property.details.rooms then property.details.rooms else none
    rok_budowy :=
      if jsTruthyNum property.details.buildingYear then property.details.buildingYear else none
    balkon := checkFeature featureText ["balkon", "balcony"]
    taras := checkFeature featureText ["taras", "terrace"]
    ogrod := checkFeature featureText ["ogród", "ogrod", "garden"]
    garaz := checkFeature featureText ["garaż", "garaz", "garage"]
    piwnica := checkFeature featureText ["piwnica", "basement", "cellar"]
    poddasze := checkFeature featureText ["poddasze", "attic"]
    winda := checkFeature featureText ["winda", "elevator", "lift"]
    inwestycja_id :=
      if jsTruthyNum (property.development.bind (·.id)) then property.development.bind (·.id)
      else none
    inwestycja_nazwa :=
      if jsTruthyNum (property.development.bind (·.id)) then property.development.bind (·.title)
      else none
    inwestycja_url :=
      if jsTruthyNum (property.development.bind (·.id)) then property.development.bind (·.url)
      else none
    ogrzewanie := if jsTruthyStr property.energyClass then property.energyClass else none }

/-- `transformToStandard(property)`: the transformer from the scraped
`Property` to the Core-Service `StandardProperty` (`transformer.ts`). -/
def transformToStandard (property : Property) : StandardProperty :=
  let standardPropertyType :=
    (propertyTypeMapLookup (jsToLower property.propertyType)).getD "other"
  let transactionType := (transactionTypeMapLookup property.listingType).getD "other"
  let coordinates :=
    match property.location.coordinates with
    | some c => if c.lat ≠ 0 ∧ c.lng ≠ 0 then some ⟨c.lat, c.lng⟩ else (none : Option StdCoordinates)
    | none => none
  let sqft :=
    if jsTruthyNum property.details.sqm then
      (property.details.sqm).map (fun s => jsRound (s * (107639 / 10000) * 10) / 10)
    else property.details.sqft
  let amenities := parseAmenities property.features property.amenities
  let countrySpecific := buildCountrySpecificFields property
  let pricePerSqft :=
    if jsTruthyNum property.pricePerSqm ∧ jsTruthyNum property.details.sqm then
      (property.pricePerSqm).map (fun p => jsRound (p / (107639 / 10000)))
    else none
  { title := property.title
    description := property.description
    price := property.price
    currency := property.currency
    price_per_sqm := property.pricePerSqm
    price_per_sqft := pricePerSqft
    property_type := standardPropertyType
    transaction_type := transactionType
    location :=
      { address := property.location.address
        city := property.location.city
        district := property.location.district
        province := property.location.province
        postal_code := property.location.postalCode
        country := "poland"
        coordinates := coordinates }
    details :=
      { bedrooms := property.details.bedrooms
        bathrooms := property.details.bathrooms
        sqm := property.details.sqm
        sqft := sqft
        rooms := property.details.rooms
        floor := property.details.floor
        total_floors := property.details.totalFloors
        year_built :=
          if jsTruthyNum property.details.buildingYear then property.details.buildingYear
          else property.details.yearBuilt
        land_area_sqm := property.details.terrainArea }
    features := property.features
    amenities := amenities
    images := property.images
    agent := property.agent
    status :=
      { is_featured := property.status.bind (·.isFeatured)
        is_promoted := property.status.bind (·.isPromoted)
        is_exclusive := property.status.bind (·.isExclusiveOffer)
        is_verified := property.status.bind (·.isVerified)
        is_private_owner := property.status.bind (·.isPrivateOwner) }
    created_at := property.dates.bind (·.createdAt)
    updated_at := property.dates.bind (·.updatedAt)
    scraped_at := property.scrapedAt
    country_specific := countrySpecific }

/-! ## Work queue change detection

`redis-queue.ts` is not among the sources; only its callers are.  The
change check is therefore modelled from the specification. -/

/-- Modelled from the spec: `RedisQueue.hasPropertyChanged` (the
`redis-queue.ts` module is missing from the sources) — "change
detection compares against the stored snapshot; absence of a prior
snapshot counts as changed (new item)".  The snapshot and the new
payload are raw-JSON strings. -/
def hasPropertyChanged (snapshot : Option String) (newPayload : String) : Bool :=
  match snapshot with
  | none => true
  | some stored => stored != newPayload

/-! ## Worker (`OtodomWorker.processListing`, scraper-playwright.ts) -/

/-- Outcome of `OtodomWorker.fetchPropertyDetail(id)`: a structured
property whose `rawData` payload is carried along, `null` (every URL
form 404d or yielded no ad data), or a thrown error (403 bot-detection
throws `Error('Bot detection …')`; network errors on *both* URLs fall
through to `null`, not to a throw). -/
inductive FetchDetailOutcome where
  | found : String → FetchDetailOutcome
  | notFound : FetchDetailOutcome
  | threw : FetchDetailOutcome
  deriving Repr, DecidableEq

/-- Environment of one `processListing(id)` call: results of the
external calls the worker makes.  Queue operations themselves are
assumed not to throw (their failure is the spec's
`QueueTransportError`, handled one level up in the poll loop). -/
structure WorkerEnv where
  alreadyProcessed : Bool
  fetch : FetchDetailOutcome
  transformThrows : Bool
  ingestThrows : Bool
  apiKeySet : Bool
  requeueOk : Bool
  snapshot : Option String
  deriving Repr, DecidableEq

/-- The side-effecting calls `processListing` can make, in order.
`ingest` is the Sink call (`sendToCoreService`); the rest are queue
mutations.  `pushMissing` exists in the queue interface but is never
emitted by the worker. -/
inductive WorkerEvent where
  | markFailed : String → String → WorkerEvent
  | ingest : String → String → WorkerEvent
  | storeSnapshot : String → String → WorkerEvent
  | markProcessed : String → WorkerEvent
  | requeue : String → Nat → WorkerEvent
  | pushMissing : String → WorkerEvent
  deriving Repr, DecidableEq

/-- Which worker events mutate the work queue (everything except the
Sink ingestion call). -/
def WorkerEvent.isQueueMutation : WorkerEvent → Bool
  | .ingest _ _ => false
  | _ => true

/-- The worker's per-run counters
(`processedCount`/`failedCount`/`changedCount`/`unchangedCount`). -/
structure WorkerCounters where
  processedCount : Nat := 0
  failedCount : Nat := 0
  changedCount : Nat := 0
  unchangedCount : Nat := 0
  deriving Repr, DecidableEq

/-- `OtodomWorker.processListing(id)`: returns the boolean result, the
updated counters, and the ordered list of external calls made.  The
`catch` path re-queues with retry limit `3` and increments
`failedCount` only when `requeueWithRetry` reports the retry budget
exhausted. -/
def processListing (env : WorkerEnv) (id : String) (c : WorkerCounters) :
    Bool × WorkerCounters × List WorkerEvent :=
  let catchResult : List WorkerEvent → Bool × WorkerCounters × List WorkerEvent :=
    fun eventsSoFar =>
      (false,
       { c with failedCount := if env.requeueOk then c.failedCount else c.failedCount + 1 },
       eventsSoFar ++ [.requeue id 3])
  if env.alreadyProcessed then
    (true, c, [])
  else
    match env.fetch with
    | .threw => catchResult []
    | .notFound => (false, c, [.markFailed id "Not found"])
    | .found payload =>
        if hasPropertyChanged env.snapshot payload then
          if env.transformThrows then catchResult []
          else if env.apiKeySet then
            if env.ingestThrows then catchResult [.ingest id payload]
            else
              (true,
               { c with
                 changedCount := c.changedCount + 1
                 processedCount := c.processedCount + 1 },
               [.ingest id payload, .storeSnapshot id payload, .markProcessed id])
          else
            (true,
             { c with
               changedCount := c.changedCount + 1
               processedCount := c.processedCount + 1 },
             [.storeSnapshot id payload, .markProcessed id])
        else
          (true,
           { c with
             unchangedCount := c.unchangedCount + 1
             processedCount := c.processedCount + 1 },
           [.markProcessed id])

/-! ## Worker and Verifier poll loops (`start()`)

Both loops pop with a bounded wait; a `null` pop increments the
consecutive-empty counter and the loop breaks once it reaches
`maxEmptyChecks = 10`; a successful pop resets the counter to `0`.
The sequence of pop results is passed in as a list; the value returned
is the list of ids actually handed to per-id processing. -/

/-- `OtodomWorker.start()` poll skeleton (`maxEmptyChecks = 10`). -/
def workerStartLoop : List (Option String) → Nat → List String
  | [], _ => []
  | none :: rest, emptyQueueCount =>
      if emptyQueueCount + 1 ≥ 10 then [] else workerStartLoop rest (emptyQueueCount + 1)
  | some id :: rest, _ => id :: workerStartLoop rest 0

/-- `MissingPropertyVerifier.start()` poll skeleton
(`maxEmptyChecks = 10`). -/
def verifierStartLoop : List (Option String) → Nat → List String
  | [], _ => []
  | none :: rest, emptyQueueCount =>
      if emptyQueueCount + 1 ≥ 10 then [] else verifierStartLoop rest (emptyQueueCount + 1)
  | some id :: rest, _ => id :: verifierStartLoop rest 0

/-! ## Verifier (`MissingPropertyVerifier`, worker-verifier file) -/

/-- Classification of one URL attempt inside
`MissingPropertyVerifier.verifyProperty`, matching its branches:
HTTP 404 (in-band or thrown), HTTP 403, a sub-500 response whose
`__NEXT_DATA__` holds `ad` with a truthy `ad.id`, a sub-500 response
without ad data, or a thrown error that is not a 404 (network failure,
5xx, timeout). -/
inductive UrlAttempt where
  | status404 : UrlAttempt
  | status403 : UrlAttempt
  | okWithAd : UrlAttempt
  | okNoAd : UrlAttempt
  | netError : UrlAttempt
  deriving Repr, DecidableEq

/-- One iteration of `verifyProperty`'s URL loop: `some b` is an early
`return b`, `none` falls through to the next URL form. -/
def verifyUrlStep : UrlAttempt → Option Bool
  | .status404 => some false
  | .status403 => some true
  | .okWithAd => some true
  | .okNoAd => none
  | .netError => none

/-- `MissingPropertyVerifier.verifyProperty(id)` over its two URL
forms; when every URL fails without a clear 404 the code returns
`false` ("All URLs failed without clear 404 - assume inactive"). -/
def verifyProperty (firstAttempt secondAttempt : UrlAttempt) : Bool :=
  match verifyUrlStep firstAttempt with
  | some b => b
  | none =>
      match verifyUrlStep secondAttempt with
      | some b => b
      | none => false

/-- An attempt outcome is ambiguous when it neither early-returns
active nor early-returns inactive (no definitive 404): a transient
error or a 200-class page without ad data. -/
def UrlAttempt.isAmbiguous : UrlAttempt → Bool
  | .okNoAd => true
  | .netError => true
  | _ => false

/-- The side-effecting calls `processMissingProperty` can make.
`markInactive` is the Sink's `MarkInactive` (`markPropertyInactive`);
the other two are queue mutations. -/
inductive VerifierEvent where
  | markInactive : String → String → String → String → VerifierEvent
  | markVerifiedInactive : String → VerifierEvent
  | updateLastSeen : String → VerifierEvent
  deriving Repr, DecidableEq

/-- The verifier's per-run counters. -/
structure VerifierCounters where
  verifiedInactiveCount : Nat := 0
  foundActiveCount : Nat := 0
  deriving Repr, DecidableEq

/-- `MissingPropertyVerifier.processMissingProperty(id)`: verifies the
property over its two URL forms; an active result updates last-seen,
an inactive result calls the Sink's mark-inactive (when an API key is
configured) and records verified-inactive in the queue. -/
def processMissingProperty (apiKeySet : Bool) (firstAttempt secondAttempt : UrlAttempt)
    (id : String) (c : VerifierCounters) : Bool × VerifierCounters × List VerifierEvent :=
  if verifyProperty firstAttempt secondAttempt then
    (true, { c with foundActiveCount := c.foundActiveCount + 1 }, [.updateLastSeen id])
  else
    (true,
     { c with verifiedInactiveCount := c.verifiedInactiveCount + 1 },
     (if apiKeySet then [.markInactive "otodom" id "poland" "not_found"] else []) ++
       [.markVerifiedInactive id])

/-! ## Coordinator pagination (`OtodomCoordinator.discoverCity`) -/

/-- Environment of one partition's discovery: the (successful) result
of `fetchListingIds(city, listingType, offset, 50)` for each offset.
A thrown page fetch aborts the whole partition through the `catch` in
`discoverCity` and is orthogonal to the termination condition modelled
here. -/
def DiscoveryEnv : Type := Nat → IdsTotal

/-- The `while (offset < firstPage.total)` loop of `discoverCity`:
returns the offsets fetched (in order) and the ids observed on those
pages.  `limit = 50` and the bound is the first page's advertised
total. -/
def discoverCityLoop (env : DiscoveryEnv) (total offset : Nat) : List Nat × List String :=
  if _h : offset < total then
    let page := env offset
    let rest := discoverCityLoop env total (offset + 50)
    (offset :: rest.1, page.ids ++ rest.2)
  else ([], [])
termination_by total - offset
decreasing_by omega

/-- `OtodomCoordinator.discoverCity`: fetches the first page (offset
`0`); a zero advertised total returns immediately; otherwise the
remaining pages are fetched while `offset < firstPage.total`.  Returns
the ordered list of offsets fetched and the ids observed. -/
def discoverCity (env : DiscoveryEnv) : List Nat × List String :=
  let firstPage := env 0
  if firstPage.total = 0 then ([0], [])
  else
    let rest := discoverCityLoop env firstPage.total 50
    (0 :: rest.1, firstPage.ids ++ rest.2)

/-! ## Retry backoff (`OtodomCityScraper.scrapeCity` and
`BaseApiClient.request`) -/

/-- The backoff delay of `OtodomCityScraper.scrapeCity`'s detail-fetch
retry loop: `config.requestDelayMs * Math.pow(2, retries - 1)` where
`retries` counts the retry being attempted (1-based). -/
def scrapeCityBackoffDelay (requestDelayMs : ℚ) (retries : Nat) : ℚ :=
  requestDelayMs * 2 ^ (retries - 1)

/-- The jitter window around that delay:
`randomDelay(backoffDelay, backoffDelay * 1.5)` samples uniformly from
this closed interval. -/
def scrapeCityBackoffWindow (requestDelayMs : ℚ) (retries : Nat) : ℚ × ℚ :=
  (scrapeCityBackoffDelay requestDelayMs retries,
   scrapeCityBackoffDelay requestDelayMs retries * (3 / 2))

/-- The retry delay of `BaseApiClient.request`:
`(retryDelayMs || 1000) * Math.pow(2, attempt)` where `attempt` is the
0-based count of attempts already made; the delay is applied as-is,
with no jitter. -/
def baseApiRetryDelay (retryDelayMs : ℚ) (attempt : Nat) : ℚ :=
  retryDelayMs * 2 ^ attempt

end Otodom

open Otodom

/-- Helper: a payload differing from the stored snapshot (or having no
prior snapshot) is detected as changed. -/
theorem hasPropertyChanged_of_ne (snapshot : Option String) (payload : String)
    (h : snapshot ≠ some payload) : hasPropertyChanged snapshot payload = true := by
  cases snapshot with
  | none => rfl
  | some stored =>
      simp only [hasPropertyChanged, bne_iff_ne, ne_eq]
      intro hEq
      exact h (by rw [hEq])

/-- C9: `OtodomCityScraper.fetchListingIds` is total over fetch
outcomes — every thrown HTTP/parse error and every response lacking
the `searchAds` items yields `{ ids: [], total: 0 }`, the same value a
legitimately empty page produces, so a failed discovery page is
indistinguishable from an empty one to the caller. -/
theorem C9_fetch_failures_indistinguishable :
    ∀ pagination : Option Pagination,
      fetchListingIds .error = ⟨[], 0⟩ ∧
      fetchListingIds (.ok none pagination) = ⟨[], 0⟩ ∧
      fetchListingIds (.ok none pagination) = fetchListingIds .error ∧
      fetchListingIds (.ok (some []) none) = fetchListingIds .error ∧
      fetchListingIds (.ok (some []) (some ⟨0⟩)) = fetchListingIds .error := by
  intro pagination
  exact ⟨rfl, rfl, rfl, rfl, rfl⟩

/-- C10: for every input property, `transformToStandard` yields a
`property_type` in {apartment, house, land, commercial, other}, a
`transaction_type` in {sale, rent, lease, other}, and
`location.country = "poland"`. -/
theorem C10_transform_invariants (property : Property) :
    (transformToStandard property).property_type ∈
        ["apartment", "house", "land", "commercial", "other"] ∧
    (transformToStandard property).transaction_type ∈ ["sale", "rent", "lease", "other"] ∧
    (transformToStandard property).location.country = "poland" := by
  refine ⟨?_, ?_, rfl⟩
  · show (propertyTypeMapLookup (jsToLower property.propertyType)).getD "other" ∈ _
    unfold propertyTypeMapLookup
    split_ifs <;> simp
  · show (transactionTypeMapLookup property.listingType).getD "other" ∈ _
    unfold transactionTypeMapLookup
    split_ifs <;> simp

/-- C2: when the fetched payload differs from the stored snapshot (or
no snapshot exists), the change check returns true and
`processListing` makes exactly one Sink `ingest` call, stores the new
payload as the snapshot after that call, and marks the id processed:
the event trace is precisely ingest → storeSnapshot → markProcessed. -/
theorem C2_changed_payload_ingested_once (id payload : String) (snapshot : Option String)
    (requeueOk : Bool) (c : WorkerCounters) (hdiff : snapshot ≠ some payload) :
    hasPropertyChanged snapshot payload = true ∧
    processListing ⟨false, .found payload, false, false, true, requeueOk, snapshot⟩ id c =
      (true,
       { c with changedCount := c.changedCount + 1, processedCount := c.processedCount + 1 },
       [.ingest id payload, .storeSnapshot id payload, .markProcessed id]) ∧
    (processListing ⟨false, .found payload, false, false, true, requeueOk, snapshot⟩
          id c).2.2.count (.ingest id payload) = 1 := by
  have hch := hasPropertyChanged_of_ne snapshot payload hdiff
  refine ⟨hch, ?_, ?_⟩ <;> simp [processListing, hch, List.count_cons]

/-- Witness for C2 at a concrete input: a brand-new id (no snapshot). -/
theorem C2_changed_payload_ingested_once_witness :
    (none : Option String) ≠ some "payload" ∧
    (hasPropertyChanged none "payload" = true ∧
     processListing ⟨false, .found "payload", false, false, true, true, none⟩ "7" {} =
       (true,
        { ({} : WorkerCounters) with
            changedCount := ({} : WorkerCounters).changedCount + 1
            processedCount := ({} : WorkerCounters).processedCount + 1 },
        [.ingest "7" "payload", .storeSnapshot "7" "payload", .markProcessed "7"]) ∧
     (processListing ⟨false, .found "payload", false, false, true, true, none⟩
          "7" ({} : WorkerCounters)).2.2.count (.ingest "7" "payload") = 1) :=
  ⟨by simp, C2_changed_payload_ingested_once "7" "payload" none true {} (by simp)⟩

/-- C3: when the fetched payload is byte-identical to the stored
snapshot, the change check returns false, no Sink ingest call is made,
the unchanged counter is incremented, and the id is still marked
processed. -/
theorem C3_unchanged_payload_skips_sink (id payload : String)
    (transformThrows ingestThrows apiKeySet requeueOk : Bool) (c : WorkerCounters) :
    hasPropertyChanged (some payload) payload = false ∧
    processListing
        ⟨false, .found payload, transformThrows, ingestThrows, apiKeySet, requeueOk,
          some payload⟩ id c =
      (true,
       { c with unchangedCount := c.unchangedCount + 1, processedCount := c.processedCount + 1 },
       [.markProcessed id]) ∧
    (processListing
        ⟨false, .found payload, transformThrows, ingestThrows, apiKeySet, requeueOk,
          some payload⟩ id c).2.2.count (.ingest id payload) = 0 := by
  have hch : hasPropertyChanged (some payload) payload = false := by
    simp [hasPropertyChanged]
  refine ⟨hch, ?_, ?_⟩ <;> simp [processListing, hch]

/-- C4: a definitive not-found detail fetch drops the id — the worker
records it as failed exactly once via `markFailed`, does not requeue
it, does not push it to the missing channel, and leaves every counter
untouched. -/
theorem C4_notfound_dropped_without_retry (id : String)
    (transformThrows ingestThrows apiKeySet requeueOk : Bool) (snapshot : Option String)
    (c : WorkerCounters) :
    processListing
        ⟨false, .notFound, transformThrows, ingestThrows, apiKeySet, requeueOk, snapshot⟩ id c =
      (false, c, [.markFailed id "Not found"]) ∧
    (processListing
        ⟨false, .notFound, transformThrows, ingestThrows, apiKeySet, requeueOk, snapshot⟩
          id c).2.2.count (.markFailed id "Not found") = 1 ∧
    (∀ maxAttempts : Nat,
        WorkerEvent.requeue id maxAttempts ∉
          (processListing
              ⟨false, .notFound, transformThrows, ingestThrows, apiKeySet, requeueOk, snapshot⟩
            id c).2.2) ∧
    WorkerEvent.pushMissing id ∉
      (processListing
          ⟨false, .notFound, transformThrows, ingestThrows, apiKeySet, requeueOk, snapshot⟩
        id c).2.2 := by
  refine ⟨rfl, ?_, ?_, ?_⟩ <;> simp [processListing]

/-- C8: when a step after a successful pop throws — the detail fetch
(403 bot detection), the transform, or the Sink ingestion — no
snapshot is stored and the id is not marked processed; the only queue
mutation on the error path is a single `requeueWithRetry(id, 3)`, and
`failedCount` is incremented exactly when that call returns false. -/
theorem C8_error_path_atomicity (id payload : String) (snapshot : Option String)
    (transformThrows ingestThrows apiKeySet requeueOk : Bool) (c : WorkerCounters)
    (hdiff : snapshot ≠ some payload) :
    processListing ⟨false, .threw, transformThrows, ingestThrows, apiKeySet, requeueOk,
        snapshot⟩ id c =
      (false,
       { c with failedCount := if requeueOk then c.failedCount else c.failedCount + 1 },
       [.requeue id 3]) ∧
    processListing ⟨false, .found payload, true, ingestThrows, apiKeySet, requeueOk,
        snapshot⟩ id c =
      (false,
       { c with failedCount := if requeueOk then c.failedCount else c.failedCount + 1 },
       [.requeue id 3]) ∧
    processListing ⟨false, .found payload, false, true, true, requeueOk, snapshot⟩ id c =
      (false,
       { c with failedCount := if requeueOk then c.failedCount else c.failedCount + 1 },
       [.ingest id payload, .requeue id 3]) ∧
    (processListing ⟨false, .found payload, false, true, true, requeueOk, snapshot⟩
          id c).2.2.filter WorkerEvent.isQueueMutation = [.requeue id 3] := by
  have hch := hasPropertyChanged_of_ne snapshot payload hdiff
  refine ⟨?_, ?_, ?_, ?_⟩ <;>
    simp [processListing, hch, WorkerEvent.isQueueMutation, List.filter]

/-- Witness for C8 at a concrete input (no snapshot, retry budget not
yet exhausted). -/
theorem C8_error_path_atomicity_witness :
    (none : Option String) ≠ some "payload" ∧
    (processListing ⟨false, .threw, false, false, true, false, none⟩ "9" {} =
       (false,
        { ({} : WorkerCounters) with
            failedCount :=
              if false then ({} : WorkerCounters).failedCount
              else ({} : WorkerCounters).failedCount + 1 },
        [.requeue "9" 3]) ∧
     processListing ⟨false, .found "payload", true, false, true, false, none⟩ "9" {} =
       (false,
        { ({} : WorkerCounters) with
            failedCount :=
              if false then ({} : WorkerCounters).failedCount
              else ({} : WorkerCounters).failedCount + 1 },
        [.requeue "9" 3]) ∧
     processListing ⟨false, .found "payload", false, true, true, false, none⟩ "9" {} =
       (false,
        { ({} : WorkerCounters) with
            failedCount :=
              if false then ({} : WorkerCounters).failedCount
              else ({} : WorkerCounters).failedCount + 1 },
        [.ingest "9" "payload", .requeue "9" 3]) ∧
     (processListing ⟨false, .found "payload", false, true, true, false, none⟩
          "9" ({} : WorkerCounters)).2.2.filter WorkerEvent.isQueueMutation =
       [.requeue "9" 3]) :=
  ⟨by simp, C8_error_path_atomicity "9" "payload" none false false true false {} (by simp)⟩

/-- Helper: the worker poll loop stops (processing nothing further)
once the consecutive-empty counter is about to reach 10. -/
theorem workerStartLoop_consecutive_empty :
    ∀ (k emptyQueueCount : Nat) (rest : List (Option String)),
      10 ≤ emptyQueueCount + k → 1 ≤ k →
      workerStartLoop (List.replicate k none ++ rest) emptyQueueCount = [] := by
  intro k
  induction k with
  | zero => intro c rest _ h1; omega
  | succ k ih =>
      intro c rest h10 _
      simp only [List.replicate_succ, List.cons_append, workerStartLoop]
      split
      · rfl
      · rename_i hlt
        exact ih (c + 1) rest (by omega) (by omega)

/-- Helper: the verifier poll loop stops once the consecutive-empty
counter is about to reach 10. -/
theorem verifierStartLoop_consecutive_empty :
    ∀ (k emptyQueueCount : Nat) (rest : List (Option String)),
      10 ≤ emptyQueueCount + k → 1 ≤ k →
      verifierStartLoop (List.replicate k none ++ rest) emptyQueueCount = [] := by
  intro k
  induction k with
  | zero => intro c rest _ h1; omega
  | succ k ih =>
      intro c rest h10 _
      simp only [List.replicate_succ, List.cons_append, verifierStartLoop]
      split
      · rfl
      · rename_i hlt
        exact ih (c + 1) rest (by omega) (by omega)

/-- C6: both the Worker and the Verifier poll loops terminate once the
queue pop comes back empty for `maxEmptyChecks = 10` consecutive
polls — whatever pop results would have followed are never consumed —
and any successful pop resets the consecutive-empty count to zero. -/
theorem C6_poll_loops_terminate_and_reset :
    (∀ (k emptyQueueCount : Nat) (rest : List (Option String)),
        10 ≤ emptyQueueCount + k → 1 ≤ k →
        workerStartLoop (List.replicate k none ++ rest) emptyQueueCount = [] ∧
        verifierStartLoop (List.replicate k none ++ rest) emptyQueueCount = []) ∧
    (∀ (id : String) (rest : List (Option String)) (emptyQueueCount : Nat),
        workerStartLoop (some id :: rest) emptyQueueCount = id :: workerStartLoop rest 0 ∧
        verifierStartLoop (some id :: rest) emptyQueueCount =
          id :: verifierStartLoop rest 0) := by
  constructor
  · intro k c rest h10 h1
    exact ⟨workerStartLoop_consecutive_empty k c rest h10 h1,
           verifierStartLoop_consecutive_empty k c rest h10 h1⟩
  · intro id rest c
    exact ⟨rfl, rfl⟩

/-- Witness for C6: ten straight empty polls from a fresh counter stop
both loops even though a popped id would have followed; a successful
pop at counter 9 resets the count. -/
theorem C6_poll_loops_terminate_and_reset_witness :
    (10 ≤ 0 + 10 ∧ 1 ≤ 10 ∧
      workerStartLoop (List.replicate 10 none ++ [some "5"]) 0 = [] ∧
      verifierStartLoop (List.replicate 10 none ++ [some "5"]) 0 = []) ∧
    (workerStartLoop (some "5" :: List.replicate 10 none) 9 =
        "5" :: workerStartLoop (List.replicate 10 none) 0 ∧
      verifierStartLoop (some "5" :: List.replicate 10 none) 9 =
        "5" :: verifierStartLoop (List.replicate 10 none) 0) :=
  ⟨⟨by omega, by omega,
    (C6_poll_loops_terminate_and_reset.1 10 0 [some "5"] (by omega) (by omega)).1,
    (C6_poll_loops_terminate_and_reset.1 10 0 [some "5"] (by omega) (by omega)).2⟩,
   C6_poll_loops_terminate_and_reset.2 "5" (List.replicate 10 none) 9⟩

/-- C1 counterexample: a transient network error on every URL form —
an ambiguous response with no definitive 404 — does *not* leave the id
alone as the claim states; `verifyProperty` falls through to its
"assume inactive" default, and the verifier calls both the Sink's
`markPropertyInactive` and the queue's `markVerifiedInactive`. -/
theorem C1_ambiguous_marks_inactive_counterexample :
    ¬ ((processMissingProperty true .netError .netError "40000" {}).2.2.count
          (VerifierEvent.markInactive "otodom" "40000" "poland" "not_found") = 0 ∧
       (processMissingProperty true .netError .netError "40000" {}).2.2.count
          (VerifierEvent.markVerifiedInactive "40000") = 0) := by
  simp [processMissingProperty, verifyProperty, verifyUrlStep]

/-- C1 amended: only a blocked (403) response defaults to
assume-still-active; when *every* URL form yields an ambiguous outcome
(transient error, or a page without ad data, with no definitive 404),
the verifier treats the id as inactive — it calls the Sink's
`MarkInactive` (when an API key is configured) and
`markVerifiedInactive`, rather than leaving the id for a later pass. -/
theorem C1_ambiguous_defaults_to_inactive (id : String) (apiKeySet : Bool)
    (firstAttempt secondAttempt : UrlAttempt) (c : VerifierCounters)
    (h1 : firstAttempt.isAmbiguous = true) (h2 : secondAttempt.isAmbiguous = true) :
    verifyProperty firstAttempt secondAttempt = false ∧
    processMissingProperty apiKeySet firstAttempt secondAttempt id c =
      (true,
       { c with verifiedInactiveCount := c.verifiedInactiveCount + 1 },
       (if apiKeySet then [.markInactive "otodom" id "poland" "not_found"] else []) ++
         [.markVerifiedInactive id]) ∧
    (∀ c2 : VerifierCounters,
        processMissingProperty apiKeySet .status403 secondAttempt id c2 =
          (true, { c2 with foundActiveCount := c2.foundActiveCount + 1 },
           [.updateLastSeen id])) := by
  cases firstAttempt <;> cases secondAttempt <;>
    simp_all [UrlAttempt.isAmbiguous, verifyProperty, verifyUrlStep, processMissingProperty]

/-- Witness for C1's amended claim: ambiguous no-ad pages on both URL
forms with an API key configured. -/
theorem C1_ambiguous_defaults_to_inactive_witness :
    UrlAttempt.okNoAd.isAmbiguous = true ∧
    (verifyProperty .okNoAd .okNoAd = false ∧
     processMissingProperty true .okNoAd .okNoAd "13" {} =
       (true,
        { ({} : VerifierCounters) with
            verifiedInactiveCount := ({} : VerifierCounters).verifiedInactiveCount + 1 },
        (if true then [.markInactive "otodom" "13" "poland" "not_found"] else []) ++
          [.markVerifiedInactive "13"]) ∧
     (∀ c2 : VerifierCounters,
        processMissingProperty true .status403 .okNoAd "13" c2 =
          (true, { c2 with foundActiveCount := c2.foundActiveCount + 1 },
           [.updateLastSeen "13"]))) :=
  ⟨rfl, C1_ambiguous_defaults_to_inactive "13" true .okNoAd .okNoAd {} rfl rfl⟩

/-- Helper: one unfolding of the pagination loop when another page
remains. -/
theorem discoverCityLoop_pos (env : DiscoveryEnv) (total offset : Nat) (h : offset < total) :
    discoverCityLoop env total offset =
      (offset :: (discoverCityLoop env total (offset + 50)).1,
       (env offset).ids ++ (discoverCityLoop env total (offset + 50)).2) := by
  rw [discoverCityLoop]
  simp [h]

/-- Helper: the pagination loop stops once the offset reaches the
advertised total. -/
theorem discoverCityLoop_stop (env : DiscoveryEnv) (total offset : Nat)
    (h : ¬ offset < total) : discoverCityLoop env total offset = ([], []) := by
  rw [discoverCityLoop]
  simp [h]

/-- Helper: the sequence of offsets the pagination loop fetches does
not depend on the pages' contents, only on the bound. -/
theorem discoverCityLoop_offsets_env_independent (env₁ env₂ : DiscoveryEnv) (total : Nat) :
    ∀ (fuel offset : Nat), total - offset ≤ fuel →
      (discoverCityLoop env₁ total offset).1 = (discoverCityLoop env₂ total offset).1 := by
  intro fuel
  induction fuel with
  | zero =>
      intro offset h
      have hnot : ¬ offset < total := by omega
      rw [discoverCityLoop_stop env₁ total offset hnot,
          discoverCityLoop_stop env₂ total offset hnot]
  | succ fuel ih =>
      intro offset h
      by_cases hlt : offset < total
      · rw [discoverCityLoop_pos env₁ total offset hlt,
            discoverCityLoop_pos env₂ total offset hlt]
        exact congrArg (offset :: ·) (ih (offset + 50) (by omega))
      · rw [discoverCityLoop_stop env₁ total offset hlt,
            discoverCityLoop_stop env₂ total offset hlt]

/-- Helper: every offset the pagination loop fetches is strictly below
the advertised total it was given. -/
theorem discoverCityLoop_offsets_lt (env : DiscoveryEnv) (total : Nat) :
    ∀ (fuel offset : Nat), total - offset ≤ fuel →
      ∀ o ∈ (discoverCityLoop env total offset).1, o < total := by
  intro fuel
  induction fuel with
  | zero =>
      intro offset h o ho
      have hnot : ¬ offset < total := by omega
      rw [discoverCityLoop_stop env total offset hnot] at ho
      simp at ho
  | succ fuel ih =>
      intro offset h o ho
      by_cases hlt : offset < total
      · rw [discoverCityLoop_pos env total offset hlt] at ho
        simp only [List.mem_cons] at ho
        rcases ho with rfl | ho
        · exact hlt
        · exact ih (offset + 50) (by omega) o ho
      · rw [discoverCityLoop_stop env total offset hlt] at ho
        simp at ho

/-- Helper: the pagination loop visits every offset of the form
`start + 50 * k` lying below the advertised total. -/
theorem discoverCityLoop_offsets_mem (env : DiscoveryEnv) (total : Nat) :
    ∀ (k offset : Nat), offset + 50 * k < total →
      (offset + 50 * k) ∈ (discoverCityLoop env total offset).1 := by
  intro k
  induction k with
  | zero =>
      intro offset h
      have hlt : offset < total := by omega
      rw [discoverCityLoop_pos env total offset hlt]
      simp
  | succ k ih =>
      intro offset h
      have hlt : offset < total := by omega
      rw [discoverCityLoop_pos env total offset hlt]
      simp only [List.mem_cons]
      right
      have harith : offset + 50 * (k + 1) = (offset + 50) + 50 * k := by ring
      rw [harith]
      exact ih (offset + 50) (by omega)

/-- C5 counterexample: two partitions on which *no* ids are observed
on any page, yet the loop fetches a different number of pages —
determined by the first page's advertised total — refuting the claim
that termination rests only on the ids actually observed and never on
the advertised total. -/
theorem C5_termination_uses_advertised_total_counterexample :
    (discoverCity (fun _ => ⟨[], 60⟩)).2 = [] ∧
    (discoverCity (fun _ => ⟨[], 200⟩)).2 = [] ∧
    (discoverCity (fun _ => ⟨[], 60⟩)).1 = [0, 50] ∧
    (discoverCity (fun _ => ⟨[], 200⟩)).1 = [0, 50, 100, 150] ∧
    (discoverCity (fun _ => ⟨[], 60⟩)).1 ≠ (discoverCity (fun _ => ⟨[], 200⟩)).1 := by
  refine ⟨?_, ?_, ?_, ?_, ?_⟩ <;>
    simp [discoverCity, discoverCityLoop]

/-- C5 amended: the pagination loop's termination is governed entirely
by the *first* page's advertised total — the fetched offsets are
independent of the ids observed (so a total that shrinks on later
pages is ignored rather than tolerated), every offset fetched beyond
the first lies below that advertised total, and there is no upper
page-count safety bound: the number of pages fetched grows without
limit as the advertised total does. -/
theorem C5_termination_by_first_advertised_total :
    (∀ env₁ env₂ : DiscoveryEnv, (env₁ 0).total = (env₂ 0).total →
        (discoverCity env₁).1 = (discoverCity env₂).1) ∧
    (∀ (env : DiscoveryEnv) (o : Nat),
        o ∈ (discoverCity env).1 → o = 0 ∨ o < (env 0).total) ∧
    (∀ n : Nat,
        50 * (n + 1) ∈ (discoverCity (fun _ => ⟨[], 50 * (n + 2)⟩)).1) := by
  refine ⟨?_, ?_, ?_⟩
  · intro env₁ env₂ h
    simp only [discoverCity, h]
    by_cases h0 : (env₂ 0).total = 0
    · simp [h0]
    · simp only [h0, if_false]
      exact congrArg (0 :: ·)
        (discoverCityLoop_offsets_env_independent env₁ env₂ ((env₂ 0).total)
          ((env₂ 0).total) 50 (by omega))
  · intro env o ho
    simp only [discoverCity] at ho
    by_cases h0 : (env 0).total = 0
    · simp [h0] at ho
      exact Or.inl ho
    · simp only [h0, if_false, List.mem_cons] at ho
      rcases ho with rfl | ho
      · exact Or.inl rfl
      · exact Or.inr
          (discoverCityLoop_offsets_lt env ((env 0).total) ((env 0).total) 50 (by omega) o ho)
  · intro n
    simp only [discoverCity]
    have h0 : ¬ (50 * (n + 2) = 0) := by omega
    simp only [h0, if_false, List.mem_cons]
    right
    have harith : 50 * (n + 1) = 50 + 50 * n := by ring
    rw [harith]
    exact discoverCityLoop_offsets_mem _ (50 * (n + 2)) n 50 (by omega)

/-- Witness for C5's amended claim: two partitions with the same
advertised total but different observed ids fetch the same offsets;
the page fetched at offset 50 lies below the advertised total 60; the
advertised total 150 forces a fetch at offset 100. -/
theorem C5_termination_by_first_advertised_total_witness :
    ((((fun _ => ⟨["a"], 60⟩ : DiscoveryEnv) 0).total =
        ((fun _ => ⟨[], 60⟩ : DiscoveryEnv) 0).total) ∧
      (discoverCity (fun _ => ⟨["a"], 60⟩)).1 = (discoverCity (fun _ => ⟨[], 60⟩)).1) ∧
    (50 ∈ (discoverCity (fun _ => ⟨["b"], 60⟩)).1 →
      50 = 0 ∨ 50 < (((fun _ => ⟨["b"], 60⟩ : DiscoveryEnv) 0).total)) ∧
    50 * (1 + 1) ∈ (discoverCity (fun _ => ⟨[], 50 * (1 + 2)⟩)).1 :=
  ⟨⟨rfl, C5_termination_by_first_advertised_total.1 (fun _ => ⟨["a"], 60⟩)
      (fun _ => ⟨[], 60⟩) rfl⟩,
   C5_termination_by_first_advertised_total.2.1 (fun _ => ⟨["b"], 60⟩) 50,
   C5_termination_by_first_advertised_total.2.2 1⟩

/-- C7 counterexample: no finite cap bounds the retry delays — with
the default bases (`requestDelayMs = 2000`, `retryDelayMs = 1000`) the
delays `base * 2^(attempt-1)` grow without bound, so the claimed
"capped at a configurable maximum" is false: no such maximum exists in
either retry site. -/
theorem C7_no_backoff_cap_counterexample :
    ¬ ∃ cap : ℚ,
        (∀ retries : Nat, 1 ≤ retries → scrapeCityBackoffDelay 2000 retries ≤ cap) ∧
        (∀ attempt : Nat, baseApiRetryDelay 1000 attempt ≤ cap) := by
  rintro ⟨cap, -, hbase⟩
  obtain ⟨n, hn⟩ := exists_nat_gt cap
  have hpow : (n : ℚ) < 2 ^ n := by
    calc (n : ℚ) < ((2 ^ n : ℕ) : ℚ) := by exact_mod_cast Nat.lt_two_pow n
    _ = 2 ^ n := by push_cast; ring
  have hge : (2 : ℚ) ^ n ≤ 1000 * 2 ^ n := by
    nlinarith [pow_pos (by norm_num : (0 : ℚ) < 2) n]
  have := hbase n
  rw [baseApiRetryDelay] at this
  linarith

/-- C7 amended: the delay before the `attempt`-th retry equals
`base * 2^(attempt-1)` at both retry sites (the city scraper's 1-based
`retries` counter and `BaseApiClient`'s 0-based `attempt` counter
agree); each further retry doubles it, with no cap ever applied; the
city scraper adds jitter by sampling uniformly from
`[delay, 1.5 * delay]`, while `BaseApiClient` applies the delay
without jitter. -/
theorem C7_backoff_formula_uncapped (base : ℚ) (attempt : Nat) (h : 1 ≤ attempt) :
    scrapeCityBackoffDelay base attempt = base * 2 ^ (attempt - 1) ∧
    baseApiRetryDelay base (attempt - 1) = base * 2 ^ (attempt - 1) ∧
    scrapeCityBackoffDelay base (attempt + 1) = 2 * scrapeCityBackoffDelay base attempt ∧
    scrapeCityBackoffWindow base attempt =
      (scrapeCityBackoffDelay base attempt, scrapeCityBackoffDelay base attempt * (3 / 2)) := by
  refine ⟨rfl, rfl, ?_, rfl⟩
  rw [scrapeCityBackoffDelay, scrapeCityBackoffDelay]
  have harith : attempt + 1 - 1 = (attempt - 1) + 1 := by omega
  rw [harith, pow_succ]
  ring

/-- Witness for C7's amended claim at the third retry with the default
2000 ms base. -/
theorem C7_backoff_formula_uncapped_witness :
    1 ≤ 3 ∧
    (scrapeCityBackoffDelay 2000 3 = 2000 * 2 ^ (3 - 1) ∧
     baseApiRetryDelay 2000 (3 - 1) = 2000 * 2 ^ (3 - 1) ∧
     scrapeCityBackoffDelay 2000 (3 + 1) = 2 * scrapeCityBackoffDelay 2000 3 ∧
     scrapeCityBackoffWindow 2000 3 =
       (scrapeCityBackoffDelay 2000 3, scrapeCityBackoffDelay 2000 3 * (3 / 2))) :=
  ⟨by omega, C7_backoff_formula_uncapped 2000 3 (by omega)⟩
